import Mathlib

/-!
Verification of the video-summarizer-go processing core.

This file shallowly embeds the parts of the repository that the claims
touch: the in-memory state store with deduplication
(internal/core in-memory store, the variant with the dedup index),
the in-memory task queue, the in-memory event bus, the processing
engine's cancellation path, the output stage processor, the prompt
manager's resolution rule, and the HTTP cancel handler.

Modelling conventions:
- Go maps become association lists `List (String × α)` with
  first-match lookup; map assignment replaces the binding.
- `time.Time` becomes `Nat` (nanoseconds); `time.Now()` becomes an
  explicit `now : Nat` parameter.
- Go `interface{}` values stored in the generic patch maps become the
  inductive `GoVal`; a failed Go type assertion corresponds to a
  `GoVal` constructor mismatch.
- Fallible Go functions returning `error` become `Except String _`;
  functions that in Go always return `nil` error keep their tuple
  shape with the error dropped.
- Mutex-protected methods are modelled as pure state transformers:
  each Go critical section is one Lean function application.
- `float64` fields (`Progress`) are never computed with in the
  embedded code; they are carried as an opaque `Int`.
- External collaborators (upload providers) are modelled by the
  results they would return, passed in as parameters.
-/

namespace VS

/-! ### Association-list maps (Go `map[string]V`) -/

def lookupA {α : Type} (m : List (String × α)) (k : String) : Option α :=
  match m with
  | [] => none
  | p :: rest => if p.1 = k then some p.2 else lookupA rest k

def updA {α : Type} (m : List (String × α)) (k : String) (v : α) : List (String × α) :=
  (k, v) :: m.filter (fun p => p.1 != k)

theorem lookupA_updA_self {α : Type} (m : List (String × α)) (k : String) (v : α) :
    lookupA (updA m k v) k = some v := by
  simp [lookupA, updA]

theorem lookupA_filter_ne {α : Type} (m : List (String × α)) (k k' : String)
    (h : k' ≠ k) : lookupA (m.filter (fun p => p.1 != k)) k' = lookupA m k' := by
  induction m with
  | nil => rfl
  | cons p rest ih =>
    by_cases hp : p.1 = k
    · have hb : (p.1 != k) = false := by simp [hp]
      have hne : ¬ p.1 = k' := by rw [hp]; exact fun hh => h hh.symm
      simp [List.filter_cons, hb, lookupA, hne, ih]
    · have hb : (p.1 != k) = true := by simp [hp]
      simp [List.filter_cons, hb, lookupA, ih]

theorem lookupA_updA_ne {α : Type} (m : List (String × α)) (k k' : String) (v : α)
    (h : k' ≠ k) : lookupA (updA m k v) k' = lookupA m k' := by
  have hne : ¬ k = k' := fun hh => h hh.symm
  simp only [updA, lookupA, hne, if_false]
  exact lookupA_filter_ne m k k' h

theorem filter_eq_self_of_lookupA_none {α : Type} (m : List (String × α)) (k : String)
    (h : lookupA m k = none) : m.filter (fun p => p.1 != k) = m := by
  induction m with
  | nil => rfl
  | cons p rest ih =>
    simp only [lookupA] at h
    by_cases hp : p.1 = k
    · rw [if_pos hp] at h
      exact absurd h (by simp)
    · rw [if_neg hp] at h
      have hb : (p.1 != k) = true := by simp [hp]
      simp [List.filter_cons, hb, ih h]

theorem length_updA_of_none {α : Type} (m : List (String × α)) (k : String) (v : α)
    (h : lookupA m k = none) : (updA m k v).length = m.length + 1 := by
  simp [updA, filter_eq_self_of_lookupA_none m k h]

/-! ### Data model (internal/interfaces) -/

/-- `interfaces.ProcessingStatus` is a Go string type. -/
abbrev ProcessingStatus := String

def statusPending : ProcessingStatus := "pending"

def statusRunning : ProcessingStatus := "running"

def statusCompleted : ProcessingStatus := "completed"

def statusFailed : ProcessingStatus := "failed"

def statusCancelled : ProcessingStatus := "cancelled"

/-- The three-way terminal check written inline in the source
(`state.Status == StatusCompleted || state.Status == StatusFailed ||
state.Status == StatusCancelled`). -/
def isTerminal (s : ProcessingStatus) : Bool :=
  s == "completed" || s == "failed" || s == "cancelled"

/-- Dynamic Go values as they appear in the `map[string]interface{}`
patches. Values of `map[string]interface{}` fields are never inspected
by the embedded code, so map payloads are carried opaquely. -/
inductive GoVal where
  | vStatus (s : String)
  | vStr (s : String)
  | vMap (m : List (String × String))
  | vTime (t : Nat)
  | vOther
deriving DecidableEq, Repr

/-- `interfaces.Prompt`; `PromptType` is a Go string type with the
recognized values `"id"` and `"text"`. -/
structure Prompt where
  type : String
  prompt : String
deriving DecidableEq, Repr

/-- `interfaces.ProcessingState` (the variant with source/prompt
fields, used together with the dedup-capable store). -/
structure ProcessingState where
  requestID : String
  sourceType : String
  url : String
  prompt : Prompt
  maxTokens : Int
  category : String
  status : ProcessingStatus
  progress : Int
  createdAt : Nat
  updatedAt : Nat
  completedAt : Option Nat
  error : String
  videoInfo : Option (List (String × String))
  audioPath : String
  transcript : String
  summary : String
  outputPath : String
  documentInfo : Option (List (String × String))
  textPath : String
deriving DecidableEq, Repr

/-- `interfaces.Event`. -/
structure Event where
  id : String
  requestID : String
  type : String
  data : List (String × GoVal)
  timestamp : Nat
deriving DecidableEq, Repr

/-- `interfaces.Task`. -/
structure Task where
  id : String
  type : String
  requestID : String
  data : List (String × GoVal)
  createdAt : Nat
deriving DecidableEq, Repr

/-! ### InMemoryStateStore (the dedup-capable variant) -/

/-- The `requests` and `dedup` maps of `InMemoryStateStore`.  The event
log is not touched by any claim and is omitted. -/
structure Store where
  requests : List (String × ProcessingState)
  dedup : List (String × String)
deriving DecidableEq, Repr

/-- The recognized patch keys of `UpdateRequestState`, with the switch
dispatch `keyOf` factored out of `applyUpdate` so that case analysis is
by constructor. -/
inductive FieldKey where
  | fStatus
  | fVideoInfo
  | fAudioPath
  | fTranscript
  | fSummary
  | fError
  | fOutputPath
  | fCompletedAt
  | fSourceType
  | fUrl
  | fDocumentInfo
  | fTextPath
deriving DecidableEq, Repr

/-- Which `case` of the `UpdateRequestState` switch a key selects
(`none` = the implicit default: the key is ignored). -/
def keyOf (k : String) : Option FieldKey :=
  if k = "status" then some FieldKey.fStatus
  else if k = "video_info" then some FieldKey.fVideoInfo
  else if k = "audio_path" then some FieldKey.fAudioPath
  else if k = "transcript" then some FieldKey.fTranscript
  else if k = "summary" then some FieldKey.fSummary
  else if k = "error" then some FieldKey.fError
  else if k = "output_path" then some FieldKey.fOutputPath
  else if k = "completed_at" then some FieldKey.fCompletedAt
  else if k = "source_type" then some FieldKey.fSourceType
  else if k = "url" then some FieldKey.fUrl
  else if k = "document_info" then some FieldKey.fDocumentInfo
  else if k = "text_path" then some FieldKey.fTextPath
  else none

/-- One iteration of the `for k, v := range updates` switch in
`UpdateRequestState`: a recognized key whose value passes the case's
type assertion sets its field; an unrecognized key or a failed type
assertion leaves the record unchanged.  (The `status` case accepts
both a `ProcessingStatus` and a `string`, which it converts.) -/
def applyUpdate (st : ProcessingState) (kv : String × GoVal) : ProcessingState :=
  match keyOf kv.1, kv.2 with
  | some FieldKey.fStatus, GoVal.vStatus v => { st with status := v }
  | some FieldKey.fStatus, GoVal.vStr v => { st with status := v }
  | some FieldKey.fVideoInfo, GoVal.vMap v => { st with videoInfo := some v }
  | some FieldKey.fAudioPath, GoVal.vStr v => { st with audioPath := v }
  | some FieldKey.fTranscript, GoVal.vStr v => { st with transcript := v }
  | some FieldKey.fSummary, GoVal.vStr v => { st with summary := v }
  | some FieldKey.fError, GoVal.vStr v => { st with error := v }
  | some FieldKey.fOutputPath, GoVal.vStr v => { st with outputPath := v }
  | some FieldKey.fCompletedAt, GoVal.vTime v => { st with completedAt := some v }
  | some FieldKey.fSourceType, GoVal.vStr v => { st with sourceType := v }
  | some FieldKey.fUrl, GoVal.vStr v => { st with url := v }
  | some FieldKey.fDocumentInfo, GoVal.vMap v => { st with documentInfo := some v }
  | some FieldKey.fTextPath, GoVal.vStr v => { st with textPath := v }
  | _, _ => st

/-- Whether a patch entry hits one of the switch cases of
`UpdateRequestState` with the expected dynamic type (i.e. actually
writes a field). -/
def appliesB (k : String) (v : GoVal) : Bool :=
  match keyOf k, v with
  | some FieldKey.fStatus, GoVal.vStatus _ => true
  | some FieldKey.fStatus, GoVal.vStr _ => true
  | some FieldKey.fVideoInfo, GoVal.vMap _ => true
  | some FieldKey.fAudioPath, GoVal.vStr _ => true
  | some FieldKey.fTranscript, GoVal.vStr _ => true
  | some FieldKey.fSummary, GoVal.vStr _ => true
  | some FieldKey.fError, GoVal.vStr _ => true
  | some FieldKey.fOutputPath, GoVal.vStr _ => true
  | some FieldKey.fCompletedAt, GoVal.vTime _ => true
  | some FieldKey.fSourceType, GoVal.vStr _ => true
  | some FieldKey.fUrl, GoVal.vStr _ => true
  | some FieldKey.fDocumentInfo, GoVal.vMap _ => true
  | some FieldKey.fTextPath, GoVal.vStr _ => true
  | _, _ => false

/-- `InMemoryStateStore.UpdateRequestState`.  The Go map `updates` is
passed as a list of key/value pairs (distinct keys write distinct
fields, so iteration order is immaterial). -/
def updateRequestState (store : Store) (requestID : String)
    (updates : List (String × GoVal)) (now : Nat) : Except String Store :=
  match lookupA store.requests requestID with
  | none => Except.error "request not found"
  | some st =>
    let st1 := updates.foldl applyUpdate st
    Except.ok { store with
      requests := updA store.requests requestID { st1 with updatedAt := now } }

/-- `InMemoryStateStore.CreateOrGetDedupRequest`.  The Go method also
returns an `error` that is always `nil`; it is dropped here. -/
def createOrGetDedupRequest (store : Store) (dedupKey : String)
    (state : ProcessingState) : String × Bool × Store :=
  match lookupA store.dedup dedupKey with
  | some reqID =>
    match lookupA store.requests reqID with
    | some existing =>
      if existing.status ≠ "failed" then
        (reqID, true, store)
      else
        (state.requestID, false,
         { requests := updA store.requests state.requestID state,
           dedup := updA store.dedup dedupKey state.requestID })
    | none =>
      (state.requestID, false,
       { requests := updA store.requests state.requestID state,
         dedup := updA store.dedup dedupKey state.requestID })
  | none =>
    (state.requestID, false,
     { requests := updA store.requests state.requestID state,
       dedup := updA store.dedup dedupKey state.requestID })

/-! ### InMemoryTaskQueue -/

/-- The `queues` map of `InMemoryTaskQueue` (`TaskType` is a Go string
type, so the key is a `String`). -/
abbrev TaskQueue := List (String × List Task)

/-- The slice currently queued for one task type; a key absent from the
map behaves as an empty slice, as in `queue, exists := q.queues[t]`. -/
def stageTasks (q : TaskQueue) (taskType : String) : List Task :=
  (lookupA q taskType).getD []

/-- `InMemoryTaskQueue.Enqueue` (always returns `nil` error). -/
def enqueue (q : TaskQueue) (task : Task) : TaskQueue :=
  updA q task.type (stageTasks q task.type ++ [task])

/-- `InMemoryTaskQueue.Dequeue`: head of the per-type slice, or the
error `"no tasks available"` leaving the queue as it was. -/
def dequeue (q : TaskQueue) (taskType : String) : Except String Task × TaskQueue :=
  match stageTasks q taskType with
  | [] => (Except.error "no tasks available", q)
  | task :: rest => (Except.ok task, updA q taskType rest)

/-- `InMemoryTaskQueue.RemoveTasksForRequest` (always returns `nil`
error): every per-type slice is rebuilt keeping only tasks whose
request id differs. -/
def removeTasksForRequest (q : TaskQueue) (requestID : String) : TaskQueue :=
  q.map (fun p => (p.1, p.2.filter (fun task => task.requestID != requestID)))

/-! ### InMemoryEventBus -/

/-- The handler slice registered for one event type (`b.handlers[t]`;
a missing key reads as an empty slice). -/
def handlersFor {α : Type} (handlers : List (String × List α)) (t : String) : List α :=
  (lookupA handlers t).getD []

/-- `InMemoryEventBus.Subscribe`: appends to the per-type slice;
handlers are kept abstract (`α`). -/
def subscribe {α : Type} (handlers : List (String × List α)) (eventType : String)
    (h : α) : List (String × List α) :=
  updA handlers eventType (handlersFor handlers eventType ++ [h])

/-- `InMemoryEventBus.Publish`: the first component is the invocation
trace — the handlers registered for `event.Type`, each applied to the
event, in slice order, on the calling thread; the second component is
the returned error, always `nil`. -/
def publish {α : Type} (handlers : List (String × List α)) (event : Event) :
    List (α × Event) × Option String :=
  ((handlersFor handlers event.type).map (fun h => (h, event)), none)

/-! ### ProcessingEngine.CancelRequest -/

/-- The engine fields that `CancelRequest` can reach: the state store
and the task queue (the event bus is represented by the list of events
the call publishes). -/
structure Engine where
  store : Store
  queue : TaskQueue
deriving DecidableEq, Repr

/-- `ProcessingEngine.CancelRequest`.  Returns the updated engine and
the list of events published during the call. -/
def cancelRequest (eng : Engine) (requestID : String) (now : Nat) :
    Except String (Engine × List Event) :=
  match lookupA eng.store.requests requestID with
  | none => Except.error ("request not found: " ++ requestID)
  | some st =>
    if isTerminal st.status then
      Except.error ("request " ++ requestID ++ " is already in final state: " ++ st.status)
    else
      match updateRequestState eng.store requestID
          [("status", GoVal.vStatus "cancelled"), ("completed_at", GoVal.vTime now)] now with
      | Except.error e => Except.error ("failed to update request state: " ++ e)
      | Except.ok store1 =>
        Except.ok ({ eng with store := store1 },
          [{ id := "evt-" ++ requestID ++ "-cancelled-" ++ toString now,
             requestID := requestID,
             type := "RequestCancelled",
             data := [("cancelled_at", GoVal.vTime now)],
             timestamp := now }])

/-! ### OutputTask.Process -/

/-- The collaborator inputs of `OutputTask.Process`: whether
`engine.GetOutputProvider()` is non-nil, and the error each upload
call would return if invoked (`none` = success). -/
structure OutputCollaborators where
  hasProvider : Bool
  uploadSummaryErr : Option String
  uploadTranscriptErr : Option String
deriving DecidableEq, Repr

/-- The observable outcome of `OutputTask.Process`: which uploads were
invoked, the collected `uploadErrors` slice, and the final
status/error written to state. -/
structure OutputOutcome where
  attemptedSummary : Bool
  attemptedTranscript : Bool
  uploadErrors : List String
  finalStatus : ProcessingStatus
  finalError : String
deriving DecidableEq, Repr

/-- Whether `OutputTask.Process` invokes `UploadSummary`: a provider
is configured, `state.Summary` is non-empty and `state.VideoInfo` is
non-nil. -/
def outputAttemptSummary (state : ProcessingState) (collab : OutputCollaborators) : Bool :=
  collab.hasProvider && state.summary != "" && state.videoInfo.isSome

/-- Whether `OutputTask.Process` invokes `UploadTranscript`. -/
def outputAttemptTranscript (state : ProcessingState) (collab : OutputCollaborators) : Bool :=
  collab.hasProvider && state.transcript != "" && state.videoInfo.isSome

/-- The `uploadErrors` slice collected by `OutputTask.Process`: the
summary upload error (if the upload was invoked and failed) followed
by the transcript upload error, each with its log prefix. -/
def outputUploadErrors (state : ProcessingState) (collab : OutputCollaborators) : List String :=
  (if outputAttemptSummary state collab then
    (match collab.uploadSummaryErr with
     | some e => ["GDrive upload summary error: " ++ e]
     | none => []) else []) ++
  (if outputAttemptTranscript state collab then
    (match collab.uploadTranscriptErr with
     | some e => ["GDrive upload transcript error: " ++ e]
     | none => []) else [])

/-- The final status `OutputTask.Process` writes: `Completed` when no
upload error was collected, else `Failed`. -/
def outputFinalStatus (state : ProcessingState) (collab : OutputCollaborators) : ProcessingStatus :=
  if (outputUploadErrors state collab).isEmpty then "completed" else "failed"

/-- The final error string: empty on success, otherwise the collected
errors joined by `"; "` under the `"Upload errors: "` prefix. -/
def outputFinalError (state : ProcessingState) (collab : OutputCollaborators) : String :=
  if (outputUploadErrors state collab).isEmpty then "" else
    "Upload errors: " ++ String.intercalate "; " (outputUploadErrors state collab)

/-- The `updateData` map `OutputTask.Process` passes to
`UpdateRequestState`: always `status`, plus `error` when non-empty. -/
def outputUpdateData (state : ProcessingState) (collab : OutputCollaborators) :
    List (String × GoVal) :=
  ("status", GoVal.vStatus (outputFinalStatus state collab)) ::
    (if outputFinalError state collab != "" then
      [("error", GoVal.vStr (outputFinalError state collab))] else [])

/-- `OutputTask.Process`.  `taskSummaryPath` is the `summary_path`
entry of `task.Data` (asserted by the Go code).  The `category` /
`user` values computed by the Go code only parameterize the upload
calls, which are abstracted by `collab`.  Returns the store after the
final `UpdateRequestState` (whose error, if any, is only logged), the
outcome, and the published events. -/
def outputProcess (store : Store) (requestID : String) (collab : OutputCollaborators)
    (taskSummaryPath : String) (now : Nat) :
    Except String (Store × OutputOutcome × List Event) :=
  match lookupA store.requests requestID with
  | none => Except.error "request not found"
  | some state =>
    let store1 := match updateRequestState store requestID
        (outputUpdateData state collab) now with
      | Except.ok s => s
      | Except.error _ => store
    Except.ok (store1,
      { attemptedSummary := outputAttemptSummary state collab,
        attemptedTranscript := outputAttemptTranscript state collab,
        uploadErrors := outputUploadErrors state collab,
        finalStatus := outputFinalStatus state collab,
        finalError := outputFinalError state collab },
      [{ id := "evt-" ++ requestID ++ "-output-" ++ toString now,
         requestID := requestID,
         type := "OutputCompleted",
         data := [("summary", GoVal.vStr taskSummaryPath),
                  ("status", GoVal.vStatus (outputFinalStatus state collab))],
         timestamp := now }])

/-! ### PromptManager -/

/-- `config.Prompt`: one loaded prompt definition. -/
structure PromptDef where
  id : String
  name : String
  description : String
  content : String
  category : String
deriving DecidableEq, Repr

/-- `config.PromptManager`: the `prompts` map and the `loaded` flag. -/
structure PromptManager where
  prompts : List (String × PromptDef)
  loaded : Bool
deriving DecidableEq, Repr

/-- `PromptManager.GetPrompt`. -/
def getPrompt (pm : PromptManager) (id : String) : Except String PromptDef :=
  if pm.loaded = false then Except.error "prompts not loaded"
  else
    match lookupA pm.prompts id with
    | none => Except.error ("prompt not found: " ++ id)
    | some p => Except.ok p

/-- `PromptManager.GetPromptContent`. -/
def getPromptContent (pm : PromptManager) (id : String) : Except String String :=
  match getPrompt pm id with
  | Except.error e => Except.error e
  | Except.ok p => Except.ok p.content

/-- `strings.Contains(s, needle)` for a one-character needle, written
over the character list so it evaluates by reduction. -/
def goContains (s : String) (c : Char) : Bool :=
  s.data.contains c

/-- `PromptManager.ResolvePrompt`.  The identifier heuristic is the
source's: no space character, and either an underscore or length at
most 20 (Go measures bytes; for the ASCII inputs considered here byte
length and character length coincide). -/
def resolvePrompt (pm : PromptManager) (input : String) : Except String String :=
  if pm.loaded = false then Except.error "prompts not loaded"
  else if !(goContains input ' ') && (goContains input '_' || input.length ≤ 20) then
    match getPromptContent pm input with
    | Except.ok content => Except.ok content
    | Except.error _ => Except.ok input
  else Except.ok input

/-- The prompt-selection step of `SummarizationProcessor.Process`
(the `switch prompt.Type` block followed by the empty-string default).
`pm` is `engine.GetPromptManager()`, which may be nil. -/
def selectPromptText (pm : Option PromptManager) (prompt : Prompt) : String :=
  let promptText :=
    if prompt.type = "id" then
      match pm with
      | some m =>
        (match resolvePrompt m prompt.prompt with
         | Except.ok resolved => resolved
         | Except.error _ => prompt.prompt)
      | none => prompt.prompt
    else if prompt.type = "text" then prompt.prompt
    else ""
  if promptText = "" then "general" else promptText

/-! ### APIHandler.CancelRequest -/

/-- An HTTP response body: either plain text written by `http.Error`,
or a JSON object (modelled structurally). -/
inductive HttpBody where
  | text (msg : String)
  | object (fields : List (String × String))
deriving DecidableEq, Repr

structure HttpResponse where
  code : Nat
  body : HttpBody
deriving DecidableEq, Repr

/-- `APIHandler.CancelRequest`: method check, `request_id` query
parameter check, then `submissionService.CancelRequest` which
delegates to `engine.CancelRequest`; any error is surfaced as HTTP
500, success as `200 {"status": "cancelled"}`. -/
def apiCancelRequest (eng : Engine) (method : String) (requestID : String)
    (now : Nat) : HttpResponse × Engine :=
  if method ≠ "POST" then
    ({ code := 405, body := HttpBody.text "Method not allowed" }, eng)
  else if requestID = "" then
    ({ code := 400, body := HttpBody.text "Request ID is required" }, eng)
  else
    match cancelRequest eng requestID now with
    | Except.error e =>
      ({ code := 500, body := HttpBody.text ("Failed to cancel request: " ++ e) }, eng)
    | Except.ok (eng1, _) =>
      ({ code := 200, body := HttpBody.object [("status", "cancelled")] }, eng1)

/-- Projection discarding the error branch of an `Except`. -/
def exOk {ε α : Type} : Except ε α → Option α
  | Except.ok a => some a
  | Except.error _ => none

/-! ### Frame lemmas for the patch switch -/

/-- The string each recognized switch case is keyed by. -/
def fieldName : FieldKey → String
  | FieldKey.fStatus => "status"
  | FieldKey.fVideoInfo => "video_info"
  | FieldKey.fAudioPath => "audio_path"
  | FieldKey.fTranscript => "transcript"
  | FieldKey.fSummary => "summary"
  | FieldKey.fError => "error"
  | FieldKey.fOutputPath => "output_path"
  | FieldKey.fCompletedAt => "completed_at"
  | FieldKey.fSourceType => "source_type"
  | FieldKey.fUrl => "url"
  | FieldKey.fDocumentInfo => "document_info"
  | FieldKey.fTextPath => "text_path"

set_option maxHeartbeats 2000000 in
theorem keyOf_inv (k : String) (fk : FieldKey) (h : keyOf k = some fk) :
    k = fieldName fk := by
  simp only [keyOf] at h
  repeat' split at h
  all_goals first
    | exact Option.noConfusion h
    | (injection h with h2; subst h2; simp only [fieldName]; assumption)

theorem applyUpdate_of_not_applies (st : ProcessingState) (kv : String × GoVal)
    (h : appliesB kv.1 kv.2 = false) : applyUpdate st kv = st := by
  rcases kv with ⟨k, v⟩
  unfold applyUpdate
  split <;> simp_all [appliesB]

theorem applyUpdate_const_fields (st : ProcessingState) (kv : String × GoVal) :
    (applyUpdate st kv).requestID = st.requestID
  ∧ (applyUpdate st kv).prompt = st.prompt
  ∧ (applyUpdate st kv).maxTokens = st.maxTokens
  ∧ (applyUpdate st kv).category = st.category
  ∧ (applyUpdate st kv).progress = st.progress
  ∧ (applyUpdate st kv).createdAt = st.createdAt
  ∧ (applyUpdate st kv).updatedAt = st.updatedAt := by
  rcases kv with ⟨k, v⟩
  unfold applyUpdate
  split <;> exact ⟨rfl, rfl, rfl, rfl, rfl, rfl, rfl⟩

theorem applyUpdate_status_ne (st : ProcessingState) (kv : String × GoVal)
    (h : kv.1 ≠ "status") : (applyUpdate st kv).status = st.status := by
  rcases kv with ⟨k, v⟩
  unfold applyUpdate
  split <;> first | rfl | exact absurd (keyOf_inv _ _ ‹_›) h

theorem applyUpdate_summary_ne (st : ProcessingState) (kv : String × GoVal)
    (h : kv.1 ≠ "summary") : (applyUpdate st kv).summary = st.summary := by
  rcases kv with ⟨k, v⟩
  unfold applyUpdate
  split <;> first | rfl | exact absurd (keyOf_inv _ _ ‹_›) h

theorem applyUpdate_transcript_ne (st : ProcessingState) (kv : String × GoVal)
    (h : kv.1 ≠ "transcript") : (applyUpdate st kv).transcript = st.transcript := by
  rcases kv with ⟨k, v⟩
  unfold applyUpdate
  split <;> first | rfl | exact absurd (keyOf_inv _ _ ‹_›) h

theorem applyUpdate_videoInfo_ne (st : ProcessingState) (kv : String × GoVal)
    (h : kv.1 ≠ "video_info") : (applyUpdate st kv).videoInfo = st.videoInfo := by
  rcases kv with ⟨k, v⟩
  unfold applyUpdate
  split <;> first | rfl | exact absurd (keyOf_inv _ _ ‹_›) h

theorem applyUpdate_audioPath_ne (st : ProcessingState) (kv : String × GoVal)
    (h : kv.1 ≠ "audio_path") : (applyUpdate st kv).audioPath = st.audioPath := by
  rcases kv with ⟨k, v⟩
  unfold applyUpdate
  split <;> first | rfl | exact absurd (keyOf_inv _ _ ‹_›) h

theorem applyUpdate_error_ne (st : ProcessingState) (kv : String × GoVal)
    (h : kv.1 ≠ "error") : (applyUpdate st kv).error = st.error := by
  rcases kv with ⟨k, v⟩
  unfold applyUpdate
  split <;> first | rfl | exact absurd (keyOf_inv _ _ ‹_›) h

theorem applyUpdate_outputPath_ne (st : ProcessingState) (kv : String × GoVal)
    (h : kv.1 ≠ "output_path") : (applyUpdate st kv).outputPath = st.outputPath := by
  rcases kv with ⟨k, v⟩
  unfold applyUpdate
  split <;> first | rfl | exact absurd (keyOf_inv _ _ ‹_›) h

theorem applyUpdate_completedAt_ne (st : ProcessingState) (kv : String × GoVal)
    (h : kv.1 ≠ "completed_at") : (applyUpdate st kv).completedAt = st.completedAt := by
  rcases kv with ⟨k, v⟩
  unfold applyUpdate
  split <;> first | rfl | exact absurd (keyOf_inv _ _ ‹_›) h

theorem applyUpdate_sourceType_ne (st : ProcessingState) (kv : String × GoVal)
    (h : kv.1 ≠ "source_type") : (applyUpdate st kv).sourceType = st.sourceType := by
  rcases kv with ⟨k, v⟩
  unfold applyUpdate
  split <;> first | rfl | exact absurd (keyOf_inv _ _ ‹_›) h

theorem applyUpdate_url_ne (st : ProcessingState) (kv : String × GoVal)
    (h : kv.1 ≠ "url") : (applyUpdate st kv).url = st.url := by
  rcases kv with ⟨k, v⟩
  unfold applyUpdate
  split <;> first | rfl | exact absurd (keyOf_inv _ _ ‹_›) h

theorem applyUpdate_documentInfo_ne (st : ProcessingState) (kv : String × GoVal)
    (h : kv.1 ≠ "document_info") : (applyUpdate st kv).documentInfo = st.documentInfo := by
  rcases kv with ⟨k, v⟩
  unfold applyUpdate
  split <;> first | rfl | exact absurd (keyOf_inv _ _ ‹_›) h

theorem applyUpdate_textPath_ne (st : ProcessingState) (kv : String × GoVal)
    (h : kv.1 ≠ "text_path") : (applyUpdate st kv).textPath = st.textPath := by
  rcases kv with ⟨k, v⟩
  unfold applyUpdate
  split <;> first | rfl | exact absurd (keyOf_inv _ _ ‹_›) h

theorem foldl_applyUpdate_const_fields (patch : List (String × GoVal))
    (st : ProcessingState) :
    (patch.foldl applyUpdate st).requestID = st.requestID
  ∧ (patch.foldl applyUpdate st).prompt = st.prompt
  ∧ (patch.foldl applyUpdate st).maxTokens = st.maxTokens
  ∧ (patch.foldl applyUpdate st).category = st.category
  ∧ (patch.foldl applyUpdate st).progress = st.progress
  ∧ (patch.foldl applyUpdate st).createdAt = st.createdAt := by
  induction patch generalizing st with
  | nil => exact ⟨rfl, rfl, rfl, rfl, rfl, rfl⟩
  | cons kv rest ih =>
    obtain ⟨h1, h2, h3, h4, h5, h6, _⟩ := applyUpdate_const_fields st kv
    obtain ⟨g1, g2, g3, g4, g5, g6⟩ := ih (applyUpdate st kv)
    exact ⟨g1.trans h1, g2.trans h2, g3.trans h3, g4.trans h4, g5.trans h5, g6.trans h6⟩

theorem foldl_applyUpdate_status_ne (patch : List (String × GoVal))
    (st : ProcessingState) (h : ∀ kv ∈ patch, kv.1 ≠ "status") :
    (patch.foldl applyUpdate st).status = st.status := by
  induction patch generalizing st with
  | nil => rfl
  | cons kv rest ih =>
    simp only [List.foldl_cons]
    rw [ih (applyUpdate st kv) (fun p hp => h p (List.mem_cons_of_mem kv hp))]
    exact applyUpdate_status_ne st kv (h kv (List.mem_cons_self kv rest))

theorem foldl_applyUpdate_summary_ne (patch : List (String × GoVal))
    (st : ProcessingState) (h : ∀ kv ∈ patch, kv.1 ≠ "summary") :
    (patch.foldl applyUpdate st).summary = st.summary := by
  induction patch generalizing st with
  | nil => rfl
  | cons kv rest ih =>
    simp only [List.foldl_cons]
    rw [ih (applyUpdate st kv) (fun p hp => h p (List.mem_cons_of_mem kv hp))]
    exact applyUpdate_summary_ne st kv (h kv (List.mem_cons_self kv rest))

theorem foldl_applyUpdate_transcript_ne (patch : List (String × GoVal))
    (st : ProcessingState) (h : ∀ kv ∈ patch, kv.1 ≠ "transcript") :
    (patch.foldl applyUpdate st).transcript = st.transcript := by
  induction patch generalizing st with
  | nil => rfl
  | cons kv rest ih =>
    simp only [List.foldl_cons]
    rw [ih (applyUpdate st kv) (fun p hp => h p (List.mem_cons_of_mem kv hp))]
    exact applyUpdate_transcript_ne st kv (h kv (List.mem_cons_self kv rest))

theorem foldl_applyUpdate_videoInfo_ne (patch : List (String × GoVal))
    (st : ProcessingState) (h : ∀ kv ∈ patch, kv.1 ≠ "video_info") :
    (patch.foldl applyUpdate st).videoInfo = st.videoInfo := by
  induction patch generalizing st with
  | nil => rfl
  | cons kv rest ih =>
    simp only [List.foldl_cons]
    rw [ih (applyUpdate st kv) (fun p hp => h p (List.mem_cons_of_mem kv hp))]
    exact applyUpdate_videoInfo_ne st kv (h kv (List.mem_cons_self kv rest))

theorem foldl_applyUpdate_audioPath_ne (patch : List (String × GoVal))
    (st : ProcessingState) (h : ∀ kv ∈ patch, kv.1 ≠ "audio_path") :
    (patch.foldl applyUpdate st).audioPath = st.audioPath := by
  induction patch generalizing st with
  | nil => rfl
  | cons kv rest ih =>
    simp only [List.foldl_cons]
    rw [ih (applyUpdate st kv) (fun p hp => h p (List.mem_cons_of_mem kv hp))]
    exact applyUpdate_audioPath_ne st kv (h kv (List.mem_cons_self kv rest))

theorem foldl_applyUpdate_error_ne (patch : List (String × GoVal))
    (st : ProcessingState) (h : ∀ kv ∈ patch, kv.1 ≠ "error") :
    (patch.foldl applyUpdate st).error = st.error := by
  induction patch generalizing st with
  | nil => rfl
  | cons kv rest ih =>
    simp only [List.foldl_cons]
    rw [ih (applyUpdate st kv) (fun p hp => h p (List.mem_cons_of_mem kv hp))]
    exact applyUpdate_error_ne st kv (h kv (List.mem_cons_self kv rest))

theorem foldl_applyUpdate_outputPath_ne (patch : List (String × GoVal))
    (st : ProcessingState) (h : ∀ kv ∈ patch, kv.1 ≠ "output_path") :
    (patch.foldl applyUpdate st).outputPath = st.outputPath := by
  induction patch generalizing st with
  | nil => rfl
  | cons kv rest ih =>
    simp only [List.foldl_cons]
    rw [ih (applyUpdate st kv) (fun p hp => h p (List.mem_cons_of_mem kv hp))]
    exact applyUpdate_outputPath_ne st kv (h kv (List.mem_cons_self kv rest))

theorem foldl_applyUpdate_completedAt_ne (patch : List (String × GoVal))
    (st : ProcessingState) (h : ∀ kv ∈ patch, kv.1 ≠ "completed_at") :
    (patch.foldl applyUpdate st).completedAt = st.completedAt := by
  induction patch generalizing st with
  | nil => rfl
  | cons kv rest ih =>
    simp only [List.foldl_cons]
    rw [ih (applyUpdate st kv) (fun p hp => h p (List.mem_cons_of_mem kv hp))]
    exact applyUpdate_completedAt_ne st kv (h kv (List.mem_cons_self kv rest))

theorem foldl_applyUpdate_sourceType_ne (patch : List (String × GoVal))
    (st : ProcessingState) (h : ∀ kv ∈ patch, kv.1 ≠ "source_type") :
    (patch.foldl applyUpdate st).sourceType = st.sourceType := by
  induction patch generalizing st with
  | nil => rfl
  | cons kv rest ih =>
    simp only [List.foldl_cons]
    rw [ih (applyUpdate st kv) (fun p hp => h p (List.mem_cons_of_mem kv hp))]
    exact applyUpdate_sourceType_ne st kv (h kv (List.mem_cons_self kv rest))

theorem foldl_applyUpdate_url_ne (patch : List (String × GoVal))
    (st : ProcessingState) (h : ∀ kv ∈ patch, kv.1 ≠ "url") :
    (patch.foldl applyUpdate st).url = st.url := by
  induction patch generalizing st with
  | nil => rfl
  | cons kv rest ih =>
    simp only [List.foldl_cons]
    rw [ih (applyUpdate st kv) (fun p hp => h p (List.mem_cons_of_mem kv hp))]
    exact applyUpdate_url_ne st kv (h kv (List.mem_cons_self kv rest))

theorem foldl_applyUpdate_documentInfo_ne (patch : List (String × GoVal))
    (st : ProcessingState) (h : ∀ kv ∈ patch, kv.1 ≠ "document_info") :
    (patch.foldl applyUpdate st).documentInfo = st.documentInfo := by
  induction patch generalizing st with
  | nil => rfl
  | cons kv rest ih =>
    simp only [List.foldl_cons]
    rw [ih (applyUpdate st kv) (fun p hp => h p (List.mem_cons_of_mem kv hp))]
    exact applyUpdate_documentInfo_ne st kv (h kv (List.mem_cons_self kv rest))

theorem foldl_applyUpdate_textPath_ne (patch : List (String × GoVal))
    (st : ProcessingState) (h : ∀ kv ∈ patch, kv.1 ≠ "text_path") :
    (patch.foldl applyUpdate st).textPath = st.textPath := by
  induction patch generalizing st with
  | nil => rfl
  | cons kv rest ih =>
    simp only [List.foldl_cons]
    rw [ih (applyUpdate st kv) (fun p hp => h p (List.mem_cons_of_mem kv hp))]
    exact applyUpdate_textPath_ne st kv (h kv (List.mem_cons_self kv rest))

/-! ### Sample data for concrete witnesses -/

/-- A sample non-terminal request record. -/
def sampleState : ProcessingState :=
  { requestID := "req-1", sourceType := "video", url := "http://example.com/v",
    prompt := { type := "id", prompt := "general" }, maxTokens := 10000,
    category := "general", status := "pending", progress := 0,
    createdAt := 1, updatedAt := 1, completedAt := none, error := "",
    videoInfo := some [("title", "T")], audioPath := "/tmp/a.mp3",
    transcript := "/tmp/t.txt", summary := "/tmp/s.md", outputPath := "",
    documentInfo := none, textPath := "" }

/-! ### C10 -/

/-- C10: on an existing request, `UpdateRequestState` never errors
whatever the patch holds: an unrecognized key or a recognized key with
a wrong dynamic type is silently ignored (`applyUpdate` is the
identity there), the stored record is the fold of the patch with
`UpdatedAt := now` stamped unconditionally (so `UpdatedAt` advances
even for an empty patch), fields the switch can never touch are
preserved, and every patchable field not named by the patch keeps its
previous value. -/
theorem c10_updateRequestState_frame (store : Store) (requestID : String)
    (patch : List (String × GoVal)) (now : Nat) (st : ProcessingState)
    (hlook : lookupA store.requests requestID = some st) :
    updateRequestState store requestID patch now =
      Except.ok
        { store with
          requests := updA store.requests requestID
            { patch.foldl applyUpdate st with updatedAt := now } }
  ∧ (∀ s kv, appliesB kv.1 kv.2 = false → applyUpdate s kv = s)
  ∧ (patch.foldl applyUpdate st).requestID = st.requestID
  ∧ (patch.foldl applyUpdate st).prompt = st.prompt
  ∧ (patch.foldl applyUpdate st).maxTokens = st.maxTokens
  ∧ (patch.foldl applyUpdate st).category = st.category
  ∧ (patch.foldl applyUpdate st).progress = st.progress
  ∧ (patch.foldl applyUpdate st).createdAt = st.createdAt
  ∧ ((∀ kv ∈ patch, kv.1 ≠ "status") →
      (patch.foldl applyUpdate st).status = st.status)
  ∧ ((∀ kv ∈ patch, kv.1 ≠ "video_info") →
      (patch.foldl applyUpdate st).videoInfo = st.videoInfo)
  ∧ ((∀ kv ∈ patch, kv.1 ≠ "audio_path") →
      (patch.foldl applyUpdate st).audioPath = st.audioPath)
  ∧ ((∀ kv ∈ patch, kv.1 ≠ "transcript") →
      (patch.foldl applyUpdate st).transcript = st.transcript)
  ∧ ((∀ kv ∈ patch, kv.1 ≠ "summary") →
      (patch.foldl applyUpdate st).summary = st.summary)
  ∧ ((∀ kv ∈ patch, kv.1 ≠ "error") →
      (patch.foldl applyUpdate st).error = st.error)
  ∧ ((∀ kv ∈ patch, kv.1 ≠ "output_path") →
      (patch.foldl applyUpdate st).outputPath = st.outputPath)
  ∧ ((∀ kv ∈ patch, kv.1 ≠ "completed_at") →
      (patch.foldl applyUpdate st).completedAt = st.completedAt)
  ∧ ((∀ kv ∈ patch, kv.1 ≠ "source_type") →
      (patch.foldl applyUpdate st).sourceType = st.sourceType)
  ∧ ((∀ kv ∈ patch, kv.1 ≠ "url") →
      (patch.foldl applyUpdate st).url = st.url)
  ∧ ((∀ kv ∈ patch, kv.1 ≠ "document_info") →
      (patch.foldl applyUpdate st).documentInfo = st.documentInfo)
  ∧ ((∀ kv ∈ patch, kv.1 ≠ "text_path") →
      (patch.foldl applyUpdate st).textPath = st.textPath) := by
  obtain ⟨e1, e2, e3, e4, e5, e6⟩ := foldl_applyUpdate_const_fields patch st
  refine ⟨by simp only [updateRequestState, hlook],
    fun s kv hkv => applyUpdate_of_not_applies s kv hkv,
    e1, e2, e3, e4, e5, e6,
    fun h => foldl_applyUpdate_status_ne patch st h,
    fun h => foldl_applyUpdate_videoInfo_ne patch st h,
    fun h => foldl_applyUpdate_audioPath_ne patch st h,
    fun h => foldl_applyUpdate_transcript_ne patch st h,
    fun h => foldl_applyUpdate_summary_ne patch st h,
    fun h => foldl_applyUpdate_error_ne patch st h,
    fun h => foldl_applyUpdate_outputPath_ne patch st h,
    fun h => foldl_applyUpdate_completedAt_ne patch st h,
    fun h => foldl_applyUpdate_sourceType_ne patch st h,
    fun h => foldl_applyUpdate_url_ne patch st h,
    fun h => foldl_applyUpdate_documentInfo_ne patch st h,
    fun h => foldl_applyUpdate_textPath_ne patch st h⟩

/-- The C10 patch used by the witness: one unrecognized key and one
recognized key carrying the wrong dynamic type. -/
def c10patch : List (String × GoVal) :=
  [("bogus_key", GoVal.vStr "x"), ("summary", GoVal.vTime 3)]

def c10store : Store := { requests := [("req-1", sampleState)], dedup := [] }

/-- C10 witness: on a concrete store, the junk patch is accepted, both
entries are ignored, and only `updatedAt` changes. -/
theorem c10_updateRequestState_frame_witness :
    updateRequestState c10store "req-1" c10patch 42 =
      Except.ok
        { c10store with
          requests := updA c10store.requests "req-1"
            { c10patch.foldl applyUpdate sampleState with updatedAt := 42 } }
  ∧ { c10patch.foldl applyUpdate sampleState with updatedAt := 42 } =
      { sampleState with updatedAt := 42 } := by
  refine ⟨(c10_updateRequestState_frame c10store "req-1" c10patch 42 sampleState
    (by decide)).1, by decide⟩

/-! ### C1 -/

/-- C1: `CreateOrGetDedupRequest` returns the existing id with
`already_existed = true` and inserts nothing when the fingerprint is
bound to a live record whose status is not `failed`; in every other
case (no binding, dangling binding, or failed record) it inserts the
new record, claims the fingerprint, and returns
`(state.requestID, false)`.  Consequently two calls with the same
fingerprint, the first on a fresh fingerprint and non-terminal record,
return the same request id and create exactly one record. -/
theorem c1_createOrGetDedupRequest (store : Store) (f : String) (s : ProcessingState) :
    (∀ r ex, lookupA store.dedup f = some r → lookupA store.requests r = some ex →
      ex.status ≠ "failed" →
      createOrGetDedupRequest store f s = (r, true, store))
  ∧ (lookupA store.dedup f = none →
      createOrGetDedupRequest store f s =
        (s.requestID, false,
         { requests := updA store.requests s.requestID s,
           dedup := updA store.dedup f s.requestID }))
  ∧ (∀ r, lookupA store.dedup f = some r → lookupA store.requests r = none →
      createOrGetDedupRequest store f s =
        (s.requestID, false,
         { requests := updA store.requests s.requestID s,
           dedup := updA store.dedup f s.requestID }))
  ∧ (∀ r ex, lookupA store.dedup f = some r → lookupA store.requests r = some ex →
      ex.status = "failed" →
      createOrGetDedupRequest store f s =
        (s.requestID, false,
         { requests := updA store.requests s.requestID s,
           dedup := updA store.dedup f s.requestID }))
  ∧ (∀ s2, lookupA store.dedup f = none → lookupA store.requests s.requestID = none →
      isTerminal s.status = false →
      createOrGetDedupRequest
          { requests := updA store.requests s.requestID s,
            dedup := updA store.dedup f s.requestID } f s2
        = (s.requestID, true,
           { requests := updA store.requests s.requestID s,
             dedup := updA store.dedup f s.requestID })
      ∧ (updA store.requests s.requestID s).length = store.requests.length + 1) := by
  refine ⟨?_, ?_, ?_, ?_, ?_⟩
  · intro r ex h1 h2 h3
    simp only [createOrGetDedupRequest, h1, h2]
    rw [if_pos h3]
  · intro h
    simp only [createOrGetDedupRequest, h]
  · intro r h1 h2
    simp only [createOrGetDedupRequest, h1, h2]
  · intro r ex h1 h2 h3
    simp only [createOrGetDedupRequest, h1, h2]
    rw [if_neg (by simp [h3])]
  · intro s2 h1 h2 h3
    have e1 : lookupA (updA store.dedup f s.requestID) f = some s.requestID :=
      lookupA_updA_self store.dedup f s.requestID
    have e2 : lookupA (updA store.requests s.requestID s) s.requestID = some s :=
      lookupA_updA_self store.requests s.requestID s
    have e3 : s.status ≠ "failed" := by
      simp only [isTerminal, Bool.or_eq_false_iff, beq_eq_false_iff_ne, ne_eq] at h3
      exact h3.1.2
    constructor
    · simp only [createOrGetDedupRequest, e1, e2]
      rw [if_pos e3]
    · exact length_updA_of_none store.requests s.requestID s h2

def c1fingerprint : String := "http://example.com/v|general|gpt-4o"

def c1second : ProcessingState := { sampleState with requestID := "req-2", createdAt := 5 }

/-- C1 witness: submitting the same fingerprint twice against an empty
store yields the same request id, `already_existed` only the second
time, and a single stored record. -/
theorem c1_createOrGetDedupRequest_witness :
    createOrGetDedupRequest { requests := [], dedup := [] } c1fingerprint sampleState =
      ("req-1", false,
       { requests := updA [] "req-1" sampleState,
         dedup := updA [] c1fingerprint "req-1" })
  ∧ createOrGetDedupRequest
      { requests := updA [] "req-1" sampleState,
        dedup := updA [] c1fingerprint "req-1" } c1fingerprint c1second
      = ("req-1", true,
         { requests := updA [] "req-1" sampleState,
           dedup := updA [] c1fingerprint "req-1" })
  ∧ (updA ([] : List (String × ProcessingState)) "req-1" sampleState).length = 0 + 1 := by
  obtain ⟨-, h2, -, -, h5⟩ :=
    c1_createOrGetDedupRequest { requests := [], dedup := [] } c1fingerprint sampleState
  obtain ⟨g1, g2⟩ := h5 c1second rfl rfl (by decide)
  refine ⟨?_, ?_, g2⟩
  · have := h2 rfl
    simpa using this
  · simpa using g1

/-! ### Shared equations for update, cancel, and output -/

theorem updateRequestState_ok_eq (store : Store) (requestID : String)
    (patch : List (String × GoVal)) (now : Nat) (st : ProcessingState)
    (hlook : lookupA store.requests requestID = some st) :
    updateRequestState store requestID patch now =
      Except.ok
        { store with
          requests := updA store.requests requestID
            { patch.foldl applyUpdate st with updatedAt := now } } := by
  simp only [updateRequestState, hlook]

theorem cancelRequest_terminal_eq (eng : Engine) (requestID : String) (now : Nat)
    (st : ProcessingState)
    (hlook : lookupA eng.store.requests requestID = some st)
    (hterm : isTerminal st.status = true) :
    cancelRequest eng requestID now =
      Except.error
        ("request " ++ requestID ++ " is already in final state: " ++ st.status) := by
  simp only [cancelRequest, hlook, hterm, if_true]

theorem cancelRequest_ok_eq (eng : Engine) (requestID : String) (now : Nat)
    (st : ProcessingState)
    (hlook : lookupA eng.store.requests requestID = some st)
    (hterm : isTerminal st.status = false) :
    cancelRequest eng requestID now =
      Except.ok
        ({ store :=
             { eng.store with
               requests := updA eng.store.requests requestID
                 { st with status := "cancelled", completedAt := some now,
                           updatedAt := now } },
           queue := eng.queue },
         [{ id := "evt-" ++ requestID ++ "-cancelled-" ++ toString now,
            requestID := requestID,
            type := "RequestCancelled",
            data := [("cancelled_at", GoVal.vTime now)],
            timestamp := now }]) := by
  have hup := updateRequestState_ok_eq eng.store requestID
    [("status", GoVal.vStatus "cancelled"), ("completed_at", GoVal.vTime now)] now st hlook
  simp only [cancelRequest, hlook, hterm, Bool.false_eq_true, if_false, hup]
  rfl

theorem outputProcess_ok_eq (store : Store) (requestID : String)
    (collab : OutputCollaborators) (sp : String) (now : Nat) (st : ProcessingState)
    (hlook : lookupA store.requests requestID = some st) :
    outputProcess store requestID collab sp now =
      Except.ok
        ({ store with
           requests := updA store.requests requestID
             { (outputUpdateData st collab).foldl applyUpdate st with
               updatedAt := now } },
         { attemptedSummary := outputAttemptSummary st collab,
           attemptedTranscript := outputAttemptTranscript st collab,
           uploadErrors := outputUploadErrors st collab,
           finalStatus := outputFinalStatus st collab,
           finalError := outputFinalError st collab },
         [{ id := "evt-" ++ requestID ++ "-output-" ++ toString now,
            requestID := requestID,
            type := "OutputCompleted",
            data := [("summary", GoVal.vStr sp),
                     ("status", GoVal.vStatus (outputFinalStatus st collab))],
            timestamp := now }]) := by
  have hup := updateRequestState_ok_eq store requestID
    (outputUpdateData st collab) now st hlook
  simp only [outputProcess, hlook, hup]

theorem foldl_outputUpdateData_status (st0 st : ProcessingState)
    (collab : OutputCollaborators) :
    ((outputUpdateData st collab).foldl applyUpdate st0).status
      = outputFinalStatus st collab := by
  have herr : ∀ kv ∈ (if outputFinalError st collab != "" then
      [("error", GoVal.vStr (outputFinalError st collab))] else []), kv.1 ≠ "status" := by
    intro kv hkv
    by_cases hc : (outputFinalError st collab != "") = true
    · rw [if_pos hc] at hkv
      simp only [List.mem_singleton] at hkv
      subst hkv
      simp
    · rw [if_neg hc] at hkv
      exact absurd hkv (List.not_mem_nil kv)
  simp only [outputUpdateData, List.foldl_cons]
  rw [foldl_applyUpdate_status_ne _ _ herr]
  rfl

theorem outputFinalStatus_iff (st : ProcessingState) (collab : OutputCollaborators) :
    outputFinalStatus st collab = "completed" ↔ outputUploadErrors st collab = [] := by
  unfold outputFinalStatus
  by_cases h : (outputUploadErrors st collab).isEmpty = true
  · rw [if_pos h]
    simp [List.isEmpty_iff.mp h]
  · rw [if_neg h]
    have hne : ¬ outputUploadErrors st collab = [] := fun hh =>
      h (List.isEmpty_iff.mpr hh)
    constructor
    · intro hh
      exact absurd hh (by decide)
    · intro hh
      exact absurd hh hne

/-! ### C2 -/

/-- The terminal record used by the C2 and C8 counterexamples. -/
def c2terminalState : ProcessingState :=
  { sampleState with status := "completed", completedAt := some 2 }

def c2store : Store := { requests := [("req-1", c2terminalState)], dedup := [] }

/-- C2 counterexample: on a record whose status is terminal
(`completed`), `UpdateRequestState` accepts a patch to `summary` —
a field other than `completed_at` — returns no error, and the stored
record's summary changes (and `updatedAt` moves too).  The claimed
rejection does not exist. -/
theorem c2_counterexample :
    isTerminal c2terminalState.status = true
  ∧ exOk (updateRequestState c2store "req-1" [("summary", GoVal.vStr "SNEW")] 9) =
      some { requests :=
               [("req-1", { c2terminalState with summary := "SNEW", updatedAt := 9 })],
             dedup := [] }
  ∧ ¬ ({ c2terminalState with summary := "SNEW", updatedAt := 9 }).summary
        = c2terminalState.summary := by decide

/-- C2 (amended): no terminal guard exists anywhere on the write path:
`UpdateRequestState` applies a patch to a terminal record exactly as
to a live one (any field, returning ok), and `OutputTask.Process`
read on a terminal record does not return early — it proceeds and
overwrites the record's status (and `updatedAt`) with its computed
final status. -/
theorem c2_terminal_not_guarded (store : Store) (requestID : String)
    (st : ProcessingState) (patch : List (String × GoVal)) (now : Nat)
    (collab : OutputCollaborators) (sp : String)
    (hlook : lookupA store.requests requestID = some st)
    (hterm : isTerminal st.status = true) :
    updateRequestState store requestID patch now =
      Except.ok
        { store with
          requests := updA store.requests requestID
            { patch.foldl applyUpdate st with updatedAt := now } }
  ∧ (∀ res, outputProcess store requestID collab sp now = Except.ok res →
      (lookupA res.1.requests requestID).map (fun r => r.status)
        = some (outputFinalStatus st collab)
      ∧ (lookupA res.1.requests requestID).map (fun r => r.updatedAt) = some now) := by
  refine ⟨updateRequestState_ok_eq store requestID patch now st hlook, ?_⟩
  intro res hres
  rw [outputProcess_ok_eq store requestID collab sp now st hlook] at hres
  injection hres with h1
  subst h1
  constructor
  · rw [lookupA_updA_self]
    simp [foldl_outputUpdateData_status]
  · rw [lookupA_updA_self]
    simp

def c2collab : OutputCollaborators :=
  { hasProvider := false, uploadSummaryErr := none, uploadTranscriptErr := none }

/-- C2 witness: the amended theorem applied to the concrete terminal
store. -/
theorem c2_terminal_not_guarded_witness :
    updateRequestState c2store "req-1" [("summary", GoVal.vStr "SNEW")] 9 =
      Except.ok
        { c2store with
          requests := updA c2store.requests "req-1"
            { [("summary", GoVal.vStr "SNEW")].foldl applyUpdate c2terminalState with
              updatedAt := 9 } } :=
  (c2_terminal_not_guarded c2store "req-1" c2terminalState
    [("summary", GoVal.vStr "SNEW")] 9 c2collab "/tmp/s.md"
    (by decide) (by decide)).1

/-! ### C3 -/

def c3task : Task :=
  { id := "task-1", type := "transcription", requestID := "req-1",
    data := [], createdAt := 1 }

def c3eng : Engine :=
  { store := { requests := [("req-1", sampleState)], dedup := [] },
    queue := [("transcription", [c3task])] }

/-- C3 counterexample: cancelling a pending request succeeds but
leaves the queued task for that request in the queue — the
remove-tasks-for-request operation is never invoked (invoking it
would have changed the queue). -/
theorem c3_counterexample :
    (exOk (cancelRequest c3eng "req-1" 7)).map (fun p => p.1.queue) = some c3eng.queue
  ∧ stageTasks c3eng.queue "transcription" = [c3task]
  ∧ c3task.requestID = "req-1"
  ∧ ¬ removeTasksForRequest c3eng.queue "req-1" = c3eng.queue := by decide

/-- C3 (amended): on a terminal record `CancelRequest` returns an
error and produces no new state; on a non-terminal record it patches
`status := cancelled` and `completed_at := now` and publishes a
`RequestCancelled` event — but it never touches the task queue (no
remove-tasks-for-request call). -/
theorem c3_cancelRequest (eng : Engine) (requestID : String) (now : Nat)
    (st : ProcessingState)
    (hlook : lookupA eng.store.requests requestID = some st) :
    (isTerminal st.status = true →
      cancelRequest eng requestID now =
        Except.error
          ("request " ++ requestID ++ " is already in final state: " ++ st.status))
  ∧ (isTerminal st.status = false →
      cancelRequest eng requestID now =
        Except.ok
          ({ store :=
               { eng.store with
                 requests := updA eng.store.requests requestID
                   { st with status := "cancelled", completedAt := some now,
                             updatedAt := now } },
             queue := eng.queue },
           [{ id := "evt-" ++ requestID ++ "-cancelled-" ++ toString now,
              requestID := requestID,
              type := "RequestCancelled",
              data := [("cancelled_at", GoVal.vTime now)],
              timestamp := now }]))
  ∧ (∀ res, cancelRequest eng requestID now = Except.ok res →
      res.1.queue = eng.queue) := by
  refine ⟨fun h => cancelRequest_terminal_eq eng requestID now st hlook h,
    fun h => cancelRequest_ok_eq eng requestID now st hlook h, ?_⟩
  intro res hres
  cases hterm : isTerminal st.status with
  | false =>
    rw [cancelRequest_ok_eq eng requestID now st hlook hterm] at hres
    injection hres with h1
    subst h1
    rfl
  | true =>
    rw [cancelRequest_terminal_eq eng requestID now st hlook hterm] at hres
    exact Except.noConfusion hres

/-- C3 witness: the amended theorem at the concrete engine. -/
theorem c3_cancelRequest_witness :
    cancelRequest c3eng "req-1" 7 =
      Except.ok
        ({ store :=
             { c3eng.store with
               requests := updA c3eng.store.requests "req-1"
                 { sampleState with status := "cancelled", completedAt := some 7,
                                    updatedAt := 7 } },
           queue := c3eng.queue },
         [{ id := "evt-" ++ "req-1" ++ "-cancelled-" ++ toString 7,
            requestID := "req-1",
            type := "RequestCancelled",
            data := [("cancelled_at", GoVal.vTime 7)],
            timestamp := 7 }]) :=
  (c3_cancelRequest c3eng "req-1" 7 sampleState (by decide)).2.1 (by decide)

/-! ### C4 -/

/-- C4: `OutputTask.Process` collects upload errors into a list; the
status it writes is `completed` exactly when the list is empty and
`failed` otherwise, with an error message joining every collected
upload error; the stored record receives exactly that status; and
when `video_info` is absent no upload is attempted, so the request
completes with status `completed`. -/
theorem c4_outputProcess (store : Store) (requestID : String)
    (collab : OutputCollaborators) (sp : String) (now : Nat) (st : ProcessingState)
    (hlook : lookupA store.requests requestID = some st) :
    (outputFinalStatus st collab = "completed" ↔ outputUploadErrors st collab = [])
  ∧ (¬ outputUploadErrors st collab = [] →
      outputFinalStatus st collab = "failed"
      ∧ outputFinalError st collab =
          "Upload errors: " ++ String.intercalate "; " (outputUploadErrors st collab))
  ∧ (∀ res, outputProcess store requestID collab sp now = Except.ok res →
      res.2.1.uploadErrors = outputUploadErrors st collab
      ∧ res.2.1.finalStatus = outputFinalStatus st collab
      ∧ (lookupA res.1.requests requestID).map (fun r => r.status)
          = some (outputFinalStatus st collab))
  ∧ (st.videoInfo = none →
      outputAttemptSummary st collab = false
      ∧ outputAttemptTranscript st collab = false
      ∧ outputUploadErrors st collab = []
      ∧ outputFinalStatus st collab = "completed") := by
  refine ⟨outputFinalStatus_iff st collab, ?_, ?_, ?_⟩
  · intro h
    have hne : (outputUploadErrors st collab).isEmpty = false := by
      rw [Bool.eq_false_iff]
      intro hh
      exact h (List.isEmpty_iff.mp hh)
    exact ⟨by simp [outputFinalStatus, hne], by simp [outputFinalError, hne]⟩
  · intro res hres
    rw [outputProcess_ok_eq store requestID collab sp now st hlook] at hres
    injection hres with h1
    subst h1
    refine ⟨rfl, rfl, ?_⟩
    rw [lookupA_updA_self]
    simp [foldl_outputUpdateData_status]
  · intro h
    have hs : outputAttemptSummary st collab = false := by
      simp [outputAttemptSummary, h]
    have ht : outputAttemptTranscript st collab = false := by
      simp [outputAttemptTranscript, h]
    have he : outputUploadErrors st collab = [] := by
      simp [outputUploadErrors, hs, ht]
    exact ⟨hs, ht, he, by simp [outputFinalStatus, he]⟩

def c4collab : OutputCollaborators :=
  { hasProvider := true, uploadSummaryErr := none,
    uploadTranscriptErr := some "quota exceeded" }

/-- C4 witness: a failed transcript upload on the concrete record
yields status `failed` with the joined error message. -/
theorem c4_outputProcess_witness :
    ¬ outputUploadErrors sampleState c4collab = []
  ∧ outputFinalStatus sampleState c4collab = "failed"
  ∧ outputFinalError sampleState c4collab =
      "Upload errors: " ++
        String.intercalate "; " (outputUploadErrors sampleState c4collab) := by
  have h := (c4_outputProcess c10store "req-1" c4collab "/tmp/s.md" 5 sampleState
    (by decide)).2.1 (by decide)
  exact ⟨by decide, h.1, h.2⟩

/-! ### C8 -/

def c8engT : Engine := { store := c2store, queue := [] }

/-- C8 counterexample: an HTTP cancel of a terminal request answers
500 (the handler maps every service error to
`http.StatusInternalServerError`), not the claimed 409. -/
theorem c8_counterexample :
    isTerminal c2terminalState.status = true
  ∧ (apiCancelRequest c8engT "POST" "req-1" 3).1.code = 500
  ∧ ¬ (apiCancelRequest c8engT "POST" "req-1" 3).1.code = 409 := by decide

/-- C8 (amended): cancelling a terminal request over HTTP yields 500
with the propagated error text; cancelling a non-terminal request
yields `200` with body `{status: "cancelled"}`. -/
theorem c8_apiCancelRequest (eng : Engine) (requestID : String) (now : Nat)
    (st : ProcessingState)
    (hid : ¬ requestID = "")
    (hlook : lookupA eng.store.requests requestID = some st) :
    (isTerminal st.status = true →
      apiCancelRequest eng "POST" requestID now =
        ({ code := 500,
           body := HttpBody.text
             ("Failed to cancel request: " ++
              ("request " ++ requestID ++ " is already in final state: " ++ st.status)) },
         eng))
  ∧ (isTerminal st.status = false →
      (apiCancelRequest eng "POST" requestID now).1 =
        { code := 200, body := HttpBody.object [("status", "cancelled")] }) := by
  constructor
  · intro h
    have hc := cancelRequest_terminal_eq eng requestID now st hlook h
    simp only [apiCancelRequest]
    rw [if_neg (by simp), if_neg hid, hc]
  · intro h
    have hc := cancelRequest_ok_eq eng requestID now st hlook h
    simp only [apiCancelRequest]
    rw [if_neg (by simp), if_neg hid, hc]

/-- C8 witness: the amended theorem at concrete engines, both
branches. -/
theorem c8_apiCancelRequest_witness :
    apiCancelRequest c8engT "POST" "req-1" 3 =
      ({ code := 500,
         body := HttpBody.text
           ("Failed to cancel request: " ++
            ("request " ++ "req-1" ++ " is already in final state: " ++
             c2terminalState.status)) },
       c8engT)
  ∧ (apiCancelRequest c3eng "POST" "req-1" 7).1 =
      { code := 200, body := HttpBody.object [("status", "cancelled")] } := by
  refine ⟨?_, ?_⟩
  · exact (c8_apiCancelRequest c8engT "req-1" 3 c2terminalState
      (by decide) (by decide)).1 (by decide)
  · exact (c8_apiCancelRequest c3eng "req-1" 7 sampleState
      (by decide) (by decide)).2 (by decide)

/-! ### C5 -/

/-- A loaded prompt whose id is longer than 20 characters and has no
underscore: the loader accepts any non-empty id and content. -/
def c5longDef : PromptDef :=
  { id := "abcdefghijklmnopqrstu", name := "Long", description := "",
    content := "THE CONTENT", category := "misc" }

def c5longPm : PromptManager :=
  { prompts := [("abcdefghijklmnopqrstu", c5longDef)], loaded := true }

/-- C5 counterexample: the input `"abcdefghijklmnopqrstu"` has no
whitespace and equals the id of a loaded prompt, yet `ResolvePrompt`
returns it literally instead of the prompt's content: the identifier
heuristic also requires an underscore or length at most 20. -/
theorem c5_counterexample :
    goContains "abcdefghijklmnopqrstu" ' ' = false
  ∧ goContains "abcdefghijklmnopqrstu" '_' = false
  ∧ 20 < "abcdefghijklmnopqrstu".length
  ∧ lookupA c5longPm.prompts "abcdefghijklmnopqrstu" = some c5longDef
  ∧ exOk (resolvePrompt c5longPm "abcdefghijklmnopqrstu")
      = some "abcdefghijklmnopqrstu"
  ∧ ¬ c5longDef.content = "abcdefghijklmnopqrstu" := by decide

theorem fallback_ne_empty (s : String) :
    ¬ (if s = "" then "general" else s) = "" := by
  split_ifs with h
  · decide
  · exact h

/-- C5 (amended): `ResolvePrompt` looks an input up as an id only when
it has no space AND (contains an underscore OR is at most 20
characters long); in that case a loaded id resolves to its content.
Inputs failing the heuristic, and unknown ids, are returned literally.
The summarization processor replaces an empty resolved prompt by the
default `"general"` (and never produces an empty prompt). -/
theorem c5_resolvePrompt (pm : PromptManager) (input : String) (p : PromptDef) :
    (pm.loaded = true → goContains input ' ' = false →
      (goContains input '_' = true ∨ input.length ≤ 20) →
      lookupA pm.prompts input = some p →
      resolvePrompt pm input = Except.ok p.content)
  ∧ (pm.loaded = true →
      (goContains input ' ' = true ∨
        (goContains input '_' = false ∧ 20 < input.length)) →
      resolvePrompt pm input = Except.ok input)
  ∧ (pm.loaded = true → lookupA pm.prompts input = none →
      resolvePrompt pm input = Except.ok input)
  ∧ (∀ pmo prompt, ¬ selectPromptText pmo prompt = "")
  ∧ (∀ pmo prompt, prompt.type = "text" → prompt.prompt = "" →
      selectPromptText pmo prompt = "general") := by
  refine ⟨?_, ?_, ?_, ?_, ?_⟩
  · intro h1 h2 h3 h4
    have hg : getPromptContent pm input = Except.ok p.content := by
      simp only [getPromptContent, getPrompt]
      rw [if_neg (by simp [h1]), h4]
    have hcond : (!(goContains input ' ') &&
        (goContains input '_' || decide (input.length ≤ 20))) = true := by
      rw [h2]
      rcases h3 with h | h
      · simp [h]
      · simp [h]
    simp only [resolvePrompt]
    rw [if_neg (by simp [h1]), if_pos hcond, hg]
  · intro h1 h2
    have hcond : (!(goContains input ' ') &&
        (goContains input '_' || decide (input.length ≤ 20))) = false := by
      rcases h2 with h | ⟨ha, hb⟩
      · simp [h]
      · simp [ha, Nat.not_le.mpr hb]
    simp only [resolvePrompt]
    rw [if_neg (by simp [h1]), if_neg (by simp [hcond])]
  · intro h1 h4
    have hg : getPromptContent pm input
        = Except.error ("prompt not found: " ++ input) := by
      simp only [getPromptContent, getPrompt]
      rw [if_neg (by simp [h1]), h4]
    simp only [resolvePrompt]
    rw [if_neg (by simp [h1])]
    by_cases hcond : (!(goContains input ' ') &&
        (goContains input '_' || decide (input.length ≤ 20))) = true
    · rw [if_pos hcond, hg]
    · rw [if_neg hcond]
  · intro pmo prompt
    exact fallback_ne_empty _
  · intro pmo prompt h1 h2
    simp [selectPromptText, h1, h2]

def c5wdef : PromptDef :=
  { id := "key_points", name := "Key Points", description := "",
    content := "KPCONTENT", category := "extraction" }

def c5wpm : PromptManager :=
  { prompts := [("key_points", c5wdef)], loaded := true }

/-- C5 witness: a loaded id passing the heuristic resolves to its
content; an empty text prompt falls back to `"general"`. -/
theorem c5_resolvePrompt_witness :
    resolvePrompt c5wpm "key_points" = Except.ok "KPCONTENT"
  ∧ selectPromptText (some c5wpm) { type := "text", prompt := "" } = "general" := by
  obtain ⟨h1, -, -, -, h5⟩ := c5_resolvePrompt c5wpm "key_points" c5wdef
  exact ⟨h1 rfl (by decide) (Or.inl (by decide)) (by decide),
    h5 (some c5wpm) { type := "text", prompt := "" } rfl rfl⟩

/-! ### C6 -/

theorem handlersFor_subscribe {α : Type} (b : List (String × List α))
    (t t' : String) (h : α) :
    handlersFor (subscribe b t h) t' =
      if t' = t then handlersFor b t' ++ [h] else handlersFor b t' := by
  by_cases e : t' = t
  · subst e
    simp [handlersFor, subscribe, lookupA_updA_self]
  · simp [handlersFor, subscribe, lookupA_updA_ne _ _ _ _ e, e]

theorem handlersFor_foldl_subscribe {α : Type} (subs : List (String × α))
    (b : List (String × List α)) (t : String) :
    handlersFor (subs.foldl (fun acc p => subscribe acc p.1 p.2) b) t
      = handlersFor b t ++ (subs.filter (fun p => p.1 == t)).map (fun p => p.2) := by
  induction subs generalizing b with
  | nil => simp
  | cons q rest ih =>
    simp only [List.foldl_cons, ih, List.filter_cons]
    by_cases e : q.1 = t
    · have eb : (q.1 == t) = true := by simp [e]
      rw [handlersFor_subscribe, if_pos e.symm]
      simp [eb, List.append_assoc]
    · have eb : (q.1 == t) = false := by simp [e]
      rw [handlersFor_subscribe, if_neg (fun hh => e hh.symm)]
      simp [eb]

/-- C6: a bus built by any sequence of `Subscribe` calls, when
published to, invokes exactly the handlers subscribed for the event's
type, each once, in subscription order, each applied to the published
event on the caller's thread (the trace is produced synchronously
inside `Publish`, so nothing is buffered or reordered), and returns a
`nil` error. -/
theorem c6_publish {α : Type} (subs : List (String × α)) (e : Event) :
    (publish (subs.foldl (fun acc p => subscribe acc p.1 p.2) []) e).1
      = (subs.filter (fun p => p.1 == e.type)).map (fun p => (p.2, e))
  ∧ (publish (subs.foldl (fun acc p => subscribe acc p.1 p.2) []) e).2 = none := by
  constructor
  · show (handlersFor _ e.type).map _ = _
    rw [handlersFor_foldl_subscribe]
    simp [handlersFor, lookupA, List.map_map, Function.comp]
  · rfl

/-! ### C7 -/

theorem stageTasks_enqueue (q : TaskQueue) (a : Task) (t : String) :
    stageTasks (enqueue q a) t =
      if t = a.type then stageTasks q t ++ [a] else stageTasks q t := by
  by_cases e : t = a.type
  · subst e
    simp [stageTasks, enqueue, lookupA_updA_self]
  · simp [stageTasks, enqueue, lookupA_updA_ne _ _ _ _ e, e]

theorem stageTasks_foldl_enqueue (ts : List Task) (q : TaskQueue) (t : String) :
    stageTasks (ts.foldl enqueue q) t
      = stageTasks q t ++ ts.filter (fun a => a.type == t) := by
  induction ts generalizing q with
  | nil => simp
  | cons a rest ih =>
    simp only [List.foldl_cons, ih, List.filter_cons]
    by_cases e : a.type = t
    · have eb : (a.type == t) = true := by simp [e]
      rw [stageTasks_enqueue, if_pos e.symm]
      simp [eb, List.append_assoc]
    · have eb : (a.type == t) = false := by simp [e]
      rw [stageTasks_enqueue, if_neg (fun hh => e hh.symm)]
      simp [eb]

theorem lookupA_map_values {α β : Type} (f : α → β) (q : List (String × α))
    (t : String) :
    lookupA (q.map (fun p => (p.1, f p.2))) t = (lookupA q t).map f := by
  induction q with
  | nil => rfl
  | cons p rest ih =>
    simp only [List.map_cons, lookupA]
    by_cases e : p.1 = t
    · simp [e]
    · simp [e, ih]

theorem stageTasks_remove (q : TaskQueue) (rid t : String) :
    stageTasks (removeTasksForRequest q rid) t
      = (stageTasks q t).filter (fun a => a.requestID != rid) := by
  unfold removeTasksForRequest stageTasks
  rw [lookupA_map_values]
  cases lookupA q t <;> simp

/-- C7: `Dequeue` returns the head of the per-stage FIFO (tasks
enqueued earlier come out first, since `Enqueue` appends at the tail)
and on an empty stage returns the error `"no tasks available"` with
the queue unchanged; `RemoveTasksForRequest` removes from every stage
exactly the tasks with the given request id, keeping the remaining
tasks in their relative order (the result is a sublist). -/
theorem c7_taskQueue (q : TaskQueue) (t rid : String) (ts : List Task) :
    (stageTasks q t = [] → dequeue q t = (Except.error "no tasks available", q))
  ∧ (∀ task rest, stageTasks q t = task :: rest →
      dequeue q t = (Except.ok task, updA q t rest))
  ∧ stageTasks (ts.foldl enqueue q) t
      = stageTasks q t ++ ts.filter (fun a => a.type == t)
  ∧ stageTasks (removeTasksForRequest q rid) t
      = (stageTasks q t).filter (fun a => a.requestID != rid)
  ∧ List.Sublist (stageTasks (removeTasksForRequest q rid) t) (stageTasks q t)
  ∧ (∀ a, a ∈ stageTasks (removeTasksForRequest q rid) t ↔
      (a ∈ stageTasks q t ∧ ¬ a.requestID = rid)) := by
  refine ⟨?_, ?_, stageTasks_foldl_enqueue ts q t, stageTasks_remove q rid t, ?_, ?_⟩
  · intro h
    unfold dequeue
    rw [h]
  · intro task rest h
    unfold dequeue
    rw [h]
  · rw [stageTasks_remove]
    exact List.filter_sublist _
  · intro a
    rw [stageTasks_remove]
    simp [List.mem_filter]

def c7t1 : Task :=
  { id := "t1", type := "transcription", requestID := "r1", data := [], createdAt := 1 }

def c7t2 : Task :=
  { id := "t2", type := "transcription", requestID := "r2", data := [], createdAt := 2 }

def c7q : TaskQueue := [("transcription", [c7t1, c7t2])]

/-- C7 witness: the theorem at a concrete two-task queue — head out
first, and an empty stage errors leaving the queue as it was. -/
theorem c7_taskQueue_witness :
    dequeue c7q "transcription" = (Except.ok c7t1, updA c7q "transcription" [c7t2])
  ∧ dequeue c7q "summarization" = (Except.error "no tasks available", c7q) := by
  obtain ⟨-, h2, -, -, -, -⟩ := c7_taskQueue c7q "transcription" "rX" []
  obtain ⟨g1, -, -, -, -, -⟩ := c7_taskQueue c7q "summarization" "rX" []
  exact ⟨h2 c7t1 [c7t2] (by decide), g1 (by decide)⟩

end VS
